import Mathlib

/-!
Verification of scripts/upstream-sync-analysis.py.

Shallow embedding: the version-control backend is modelled as a function
from the argument list of a git invocation to the process result
(captured stdout and exit code).  The script runs git with check=False,
so the exit code is never inspected by the code; it is kept in the model
so that environments representing failing git commands can be written
down faithfully.  Wall-clock values (datetime.now) and the FORCE_REPORT
environment variable are passed as explicit parameters.

Python string primitives (strip, split, lower, join, sorted) are
embedded as computable functions on the character list underlying a
String, so that every definition evaluates inside the kernel.
-/

set_option maxRecDepth 10000

/-- str.strip(): drop whitespace characters from both ends. -/
def py_strip (s : String) : String :=
  ⟨((s.data.dropWhile Char.isWhitespace).reverse.dropWhile Char.isWhitespace).reverse⟩

/-- Helper for py_split_nl: accumulate the current chunk (reversed) while
scanning the character list. -/
def py_split_nl_aux : List Char → List Char → List String
  | [], acc => [⟨acc.reverse⟩]
  | c :: cs, acc =>
      if c = '\n' then ⟨acc.reverse⟩ :: py_split_nl_aux cs []
      else py_split_nl_aux cs (c :: acc)

/-- str.split("\n"): split on every newline; the empty string yields
the one-element list containing the empty string, as in Python. -/
def py_split_nl (s : String) : List String :=
  py_split_nl_aux s.data []

/-- str.lower() (ASCII case folding, which is all the script compares). -/
def py_lower (s : String) : String :=
  ⟨s.data.map Char.toLower⟩

/-- Python join: "\n".join(lines) as str.join computes it. -/
def py_join (sep : String) : List String → String
  | [] => ""
  | [x] => x
  | x :: y :: ys => x ++ sep ++ py_join sep (y :: ys)

/-- The string order used by Python sorted(): lexicographic comparison
of the code-point sequences, i.e. the order on String from its
character data. -/
def pyLE (a b : String) : Prop := a ≤ b

instance pyLE_dec : DecidableRel pyLE := fun a b =>
  decidable_of_iff (a.data = b.data ∨ List.Lex (fun c d : Char => c < d) a.data b.data)
    (by rw [show pyLE a b = (a ≤ b) from rfl, String.le_iff_toList_le]; exact Iff.rfl)

/-- Insert a string into a pyLE-sorted list, keeping it sorted. -/
def py_insert (x : String) : List String → List String
  | [] => [x]
  | y :: ys => if pyLE x y then x :: y :: ys else y :: py_insert x ys

/-- Insertion sort by pyLE: the ascending enumeration of a list. -/
def py_sort : List String → List String
  | [] => []
  | x :: xs => py_insert x (py_sort xs)

instance pyLE_antisymm_inst : IsAntisymm String pyLE :=
  ⟨fun _ _ hab hba => le_antisymm hab hba⟩

/-- pyLE is total (strings are linearly ordered). -/
lemma pyLE_total (a b : String) : pyLE a b ∨ pyLE b a := le_total a b

/-- pyLE is transitive. -/
lemma pyLE_trans {a b c : String} (hab : pyLE a b) (hbc : pyLE b c) : pyLE a c :=
  le_trans hab hbc

/-- Insertion produces a permutation of consing. -/
lemma py_insert_perm (x : String) (l : List String) :
    List.Perm (py_insert x l) (x :: l) := by
  induction l with
  | nil => exact List.Perm.refl _
  | cons y ys ih =>
      rw [py_insert]
      by_cases h : pyLE x y
      · rw [if_pos h]
      · rw [if_neg h]
        exact (List.Perm.cons y ih).trans (List.Perm.swap x y ys)

/-- Insertion sort permutes its input. -/
lemma py_sort_perm (l : List String) : List.Perm (py_sort l) l := by
  induction l with
  | nil => exact List.Perm.refl _
  | cons x xs ih =>
      rw [py_sort]
      exact (py_insert_perm x (py_sort xs)).trans (List.Perm.cons x ih)

/-- Membership in an insertion. -/
lemma mem_py_insert {a x : String} {l : List String} :
    a ∈ py_insert x l ↔ a = x ∨ a ∈ l := by
  rw [(py_insert_perm x l).mem_iff, List.mem_cons]

/-- Insertion preserves sortedness. -/
lemma py_insert_sorted (x : String) {l : List String} (h : l.Sorted pyLE) :
    (py_insert x l).Sorted pyLE := by
  induction l with
  | nil => simp [py_insert, List.Sorted]
  | cons y ys ih =>
      rw [py_insert]
      by_cases hxy : pyLE x y
      · rw [if_pos hxy]
        refine List.sorted_cons.mpr ⟨?_, h⟩
        intro b hb
        rcases List.mem_cons.mp hb with hb | hb
        · exact hb ▸ hxy
        · exact pyLE_trans hxy (List.rel_of_sorted_cons h b hb)
      · rw [if_neg hxy]
        rw [List.sorted_cons] at h
        refine List.sorted_cons.mpr ⟨?_, ih h.2⟩
        intro b hb
        rcases mem_py_insert.mp hb with hb | hb
        · exact hb ▸ (pyLE_total x y).resolve_left hxy
        · exact h.1 b hb

/-- Insertion sort sorts. -/
lemma py_sort_sorted (l : List String) : (py_sort l).Sorted pyLE := by
  induction l with
  | nil => simp [py_sort, List.Sorted]
  | cons x xs ih => exact py_insert_sorted x ih

/-- Insertion sort is invariant under permutation of its input, so it
descends to multisets. -/
lemma py_sort_eq_of_perm {l₁ l₂ : List String} (h : List.Perm l₁ l₂) :
    py_sort l₁ = py_sort l₂ :=
  List.eq_of_perm_of_sorted
    ((py_sort_perm l₁).trans (h.trans (py_sort_perm l₂).symm))
    (py_sort_sorted l₁) (py_sort_sorted l₂)

/-- The ascending enumeration of a multiset of strings. -/
def py_sort_multiset (m : Multiset String) : List String :=
  Quot.liftOn m py_sort (fun _ _ h => py_sort_eq_of_perm h)

/-- Result of one subprocess.run invocation of git: captured stdout and
the process exit code. -/
structure GitResult where
  stdout : String
  exitCode : Nat

/-- The version-control backend: a map from git argument lists to process
results.  The script only issues read-only queries, so a pure function is
an adequate model of one repository state. -/
def Git : Type := List String → GitResult

/-- run_git: runs git with the given args, check=False, and returns
result.stdout.strip().  Because check=False, a non-zero exit code does
not raise; the (possibly empty) stripped stdout is returned regardless. -/
def run_git (g : Git) (args : List String) : String :=
  py_strip (g args).stdout

/-- The set built in the merge-base fallback of get_fork_point:
set(run_git(["rev-list", "upstream/main"]).split("\n")). -/
def upstream_commit_set (g : Git) : Finset String :=
  (py_split_nl (run_git g (["rev-list", "upstream/main"]))).toFinset

/-- The for-loop of get_fork_point: walk origin/main history newest-first
and return the first commit that lies in upstream_commit_set. -/
def first_shared (g : Git) : Option String :=
  (py_split_nl (run_git g (["rev-list", "origin/main"]))).find?
    (fun c => decide (c ∈ upstream_commit_set g))

/-- get_fork_point: merge-base first; on empty output fall back to the
first-common-commit walk (first_shared); last resort the root commit. -/
def get_fork_point (g : Git) : String :=
  let fork_point := run_git g (["merge-base", "origin/main", "upstream/main"])
  if fork_point ≠ "" then fork_point
  else
    match first_shared g with
    | some c => c
    | none => run_git g (["rev-list", "--max-parents=0", "HEAD"])

/-- get_changed_files: git diff --name-only from..to, empty output maps
to the empty set, otherwise the set of the output lines. -/
def get_changed_files (g : Git) (from_ref to_ref : String) : Finset String :=
  let output := run_git g (["diff", "--name-only", from_ref ++ ".." ++ to_ref])
  if output = "" then ∅ else (py_split_nl output).toFinset

/-- get_commit_log: git log --oneline --no-merges -limit from..to, empty
output maps to the empty list, otherwise the list of output lines.
The Python default limit=50 is passed explicitly at the call site. -/
def get_commit_log (g : Git) (from_ref to_ref : String) (limit : Nat) : List String :=
  let output := run_git g
    (["log", "--oneline", "--no-merges", "-" ++ toString limit, from_ref ++ ".." ++ to_ref])
  if output = "" then [] else py_split_nl output

/-- get_file_diff: diff for one path, truncated to max_lines lines plus a
trailing "... (N more lines)" marker when the diff is longer.  The Python
default max_lines=50 is passed explicitly at the call site. -/
def get_file_diff (g : Git) (from_ref to_ref filepath : String) (max_lines : Nat) : String :=
  let diff := run_git g (["diff", from_ref ++ ".." ++ to_ref, "--", filepath])
  let lines := py_split_nl diff
  if lines.length > max_lines then
    py_join ("\n") (lines.take max_lines) ++ "\n" ++
      ("... (" ++ toString (lines.length - max_lines) ++ " more lines)")
  else diff

/-- The SyncAnalysis NamedTuple. -/
structure SyncAnalysis where
  fork_point : String
  fork_files : Finset String
  upstream_files : Finset String
  conflict_files : Finset String
  safe_upstream_files : Finset String
  safe_fork_files : Finset String
  upstream_commits : List String

/-- analyze_sync: resolve the fork point, compute both change sets, and
derive conflict and safe sets by intersection and difference. -/
def analyze_sync (g : Git) : SyncAnalysis :=
  let fork_point := get_fork_point g
  let fork_files := get_changed_files g fork_point ("origin/main")
  let upstream_files := get_changed_files g fork_point ("upstream/main")
  let conflict_files := fork_files ∩ upstream_files
  let safe_upstream_files := upstream_files \ fork_files
  let safe_fork_files := fork_files \ upstream_files
  let upstream_commits := get_commit_log g fork_point ("upstream/main") 50
  ⟨fork_point, fork_files, upstream_files, conflict_files,
    safe_upstream_files, safe_fork_files, upstream_commits⟩

/-- force_report: os.environ.get("FORCE_REPORT", "false").lower() == "true".
The environment variable is modelled as an Option String. -/
def force_report (v : Option String) : Bool :=
  decide (py_lower (v.getD ("false")) = "true")

/-- sorted(s) for a Python set of strings: the ascending lexicographic
enumeration of its elements. -/
def py_sorted (s : Finset String) : List String :=
  py_sort_multiset s.val

/-- The lines appended for one entry of the Potential Conflicts loop of
generate_report, for the enumerate pair (i, filepath) (1-based). -/
def conflict_entry (g : Git) (fork_point : String) (p : Nat × String) : List String :=
  let diff := get_file_diff g fork_point ("upstream/main") p.2 50
  ["### " ++ toString p.1 ++ ". `" ++ p.2 ++ "`",
   "",
   "<details>",
   "<summary>View upstream changes</summary>",
   "",
   "```diff",
   (if diff = "" then "(no diff available)" else diff),
   "```",
   "",
   "</details>",
   ""]

/-- All report lines strictly between the title line (which embeds the
current date) and the three trailing footer lines, in source order. -/
def report_body (a : SyncAnalysis) (g : Git) : List String :=
  ["",
   "## Summary",
   "",
   "| Metric | Count |",
   "|--------|-------|",
   "| Your customized files | " ++ toString a.fork_files.card ++ " |",
   "| Upstream changed files | " ++ toString a.upstream_files.card ++ " |",
   "| Potential conflicts | " ++ toString a.conflict_files.card ++ " |",
   "| Safe to merge | " ++ toString a.safe_upstream_files.card ++ " |",
   "",
   "**Fork point:** `" ++ a.fork_point.take 8 ++ "`",
   ""]
  ++ (if a.conflict_files ≠ ∅ then
        ["## Potential Conflicts",
         "",
         "These files were modified in **BOTH** your fork AND upstream.",
         "You will need to manually review and merge these changes.",
         ""]
        ++ (List.enumFrom 1 (py_sorted a.conflict_files)).flatMap
             (conflict_entry g a.fork_point)
      else
        ["## No Conflicts Detected",
         "",
         "None of the upstream changes affect files you\x27ve customized.",
         ""])
  ++ (if a.safe_upstream_files ≠ ∅ then
        ["## Safe Upstream Updates",
         "",
         "These upstream changes don\x27t affect your customizations:",
         "",
         "<details>",
         "<summary>View all safe updates (" ++ toString a.safe_upstream_files.card
           ++ " files)</summary>",
         ""]
        ++ (py_sorted a.safe_upstream_files).map (fun fp => "- `" ++ fp ++ "`")
        ++ ["", "</details>", ""]
      else [])
  ++ (if a.safe_fork_files ≠ ∅ then
        ["## Your Customizations (untouched by upstream)",
         "",
         "These files you\x27ve modified are not affected by upstream changes:",
         "",
         "<details>",
         "<summary>View your customizations (" ++ toString a.safe_fork_files.card
           ++ " files)</summary>",
         ""]
        ++ (py_sorted a.safe_fork_files).map (fun fp => "- `" ++ fp ++ "`")
        ++ ["", "</details>", ""]
      else [])
  ++ (if a.upstream_commits ≠ [] then
        ["## Recent Upstream Commits",
         "",
         "<details>",
         "<summary>View recent commits (" ++ toString a.upstream_commits.length
           ++ " shown)</summary>",
         "",
         "```"]
        ++ a.upstream_commits
        ++ ["```", "", "</details>", ""]
      else [])
  ++ ["## Recommended Actions", ""]
  ++ (if a.conflict_files ≠ ∅ then
        ["1. **Review conflicts** listed above carefully",
         "2. **Create backup branch:**",
         "   ```bash",
         "   git checkout -b backup-$(date +%Y%m%d)",
         "   git checkout main",
         "   ```",
         "3. **Fetch and merge upstream:**",
         "   ```bash",
         "   git fetch upstream",
         "   git merge upstream/main",
         "   ```",
         "4. **Resolve conflicts** in your editor",
         "5. **Complete merge:**",
         "   ```bash",
         "   git add .",
         "   git commit -m \"Merge upstream/main\"",
         "   ```",
         "6. **Test** your customizations still work",
         "7. **Push** to your fork:",
         "   ```bash",
         "   git push origin main",
         "   ```"]
      else
        ["No conflicts detected! You can safely merge upstream:",
         "",
         "```bash",
         "git fetch upstream",
         "git merge upstream/main",
         "git push origin main",
         "```"])

/-- The full list of report lines built by generate_report: the dated
title line, the body, and the trailing timestamped footer.  The two
datetime.now() renderings (date for the title, ts for the footer) are
explicit parameters. -/
def report_lines (a : SyncAnalysis) (g : Git) (date ts : String) : List String :=
  ("# Upstream Sync Report - " ++ date) :: report_body a g
    ++ ["", "---", "*Generated by Upstream Sync Monitor on " ++ ts ++ "*"]

/-- generate_report: suppressed (empty string) when there are no upstream
files and FORCE_REPORT is not set; otherwise the joined report lines. -/
def generate_report (a : SyncAnalysis) (g : Git) (force_val : Option String)
    (date ts : String) : String :=
  if a.upstream_files = ∅ ∧ ¬ force_report force_val then ""
  else py_join ("\n") (report_lines a g date ts)

/-- The subprocess layer as seen by main: either the git binary is
missing, in which case the first subprocess.run call raises
FileNotFoundError with some message, or git runs and the whole pipeline
is exception-free (run_git uses check=False, so failing git commands
return normally). -/
inductive Proc where
  | missing (msg : String)
  | runs (g : Git)

/-- main: try the pipeline, print the report on stdout and exit 0; on an
exception print a diagnostic on stderr and exit 1.  Returns
(stdout, stderr, exit code); print appends a newline. -/
def main_run (p : Proc) (force_val : Option String) (date ts : String) :
    String × String × Nat :=
  match p with
  | Proc.missing msg => ("", "Error during analysis: " ++ msg, 1)
  | Proc.runs g =>
      ((generate_report (analyze_sync g) g force_val date ts) ++ "\n", "", 0)

/-- A backend in which every git command succeeds with empty output:
an empty repository state, also used where only selected queries matter. -/
def env_empty : Git := fun _ => ⟨"", 0⟩

/-- A backend in which every git command fails (exit code 128, as git
reports for unknown references) with empty output: the missing-branch
scenario. -/
def env_fail : Git := fun _ => ⟨"", 128⟩

/-- A backend with no merge-base but a first shared commit c2 between
origin/main (c4, c2, c1) and upstream/main (c3, c2, c1). -/
def env6 : Git := fun args =>
  if args = ["merge-base", "origin/main", "upstream/main"] then ⟨"", 0⟩
  else if args = ["rev-list", "upstream/main"] then ⟨"c3\nc2\nc1", 0⟩
  else if args = ["rev-list", "origin/main"] then ⟨"c4\nc2\nc1", 0⟩
  else if args = ["rev-list", "--max-parents=0", "HEAD"] then ⟨"c1", 0⟩
  else ⟨"", 0⟩

/-- An 80-line diff text (lines l0 .. l79). -/
def diff80 : String :=
  py_join ("\n") ((List.range 80).map (fun i => "l" ++ toString i))

/-- A backend returning the 80-line diff for one file query. -/
def env80 : Git := fun args =>
  if args = ["diff", "abcd..upstream/main", "--", "f.py"] then ⟨diff80, 0⟩
  else ⟨"", 0⟩

/-- An analysis with no changes on either side. -/
def A0 : SyncAnalysis := ⟨"abc", ∅, ∅, ∅, ∅, ∅, []⟩

/-- An analysis with one safe upstream change and nothing else. -/
def A4 : SyncAnalysis := ⟨"deadbeef", ∅, {"y.txt"}, ∅, {"y.txt"}, ∅, []⟩

/-- An analysis whose three upstream changes are all safe, given in
non-sorted insertion order. -/
def A8 : SyncAnalysis :=
  ⟨"deadbeef", ∅, {"b.txt", "a.txt", "c.txt"}, ∅, {"b.txt", "a.txt", "c.txt"}, ∅, []⟩

/-- An analysis whose two changes conflict, given in non-sorted
insertion order. -/
def A8c : SyncAnalysis :=
  ⟨"deadbeef", {"b.txt", "a.txt"}, {"b.txt", "a.txt"}, {"b.txt", "a.txt"}, ∅, ∅, []⟩

/-- An analysis with a single conflicting file x. -/
def A9 : SyncAnalysis := ⟨"abcd1234", {"x"}, {"x"}, {"x"}, ∅, ∅, []⟩

/-- The fork change set computed inside analyze_sync. -/
lemma analyze_sync_fork_files (g : Git) :
    (analyze_sync g).fork_files = get_changed_files g (get_fork_point g) ("origin/main") := rfl

/-- The upstream change set computed inside analyze_sync. -/
lemma analyze_sync_upstream_files (g : Git) :
    (analyze_sync g).upstream_files = get_changed_files g (get_fork_point g) ("upstream/main") := rfl

/-- conflict_files as derived by analyze_sync. -/
lemma analyze_sync_conflict_eq (g : Git) :
    (analyze_sync g).conflict_files = (analyze_sync g).fork_files ∩ (analyze_sync g).upstream_files := rfl

/-- safe_upstream_files as derived by analyze_sync. -/
lemma analyze_sync_safe_upstream_eq (g : Git) :
    (analyze_sync g).safe_upstream_files = (analyze_sync g).upstream_files \ (analyze_sync g).fork_files := rfl

/-- safe_fork_files as derived by analyze_sync. -/
lemma analyze_sync_safe_fork_eq (g : Git) :
    (analyze_sync g).safe_fork_files = (analyze_sync g).fork_files \ (analyze_sync g).upstream_files := rfl

/-- C1: for every backend state, analyze_sync derives
conflictFiles = forkFiles ∩ upstreamFiles,
safeUpstreamFiles = upstreamFiles − forkFiles and
safeForkFiles = forkFiles − upstreamFiles, and the three derived sets
cover forkFiles ∪ upstreamFiles and are pairwise disjoint. -/
theorem analyze_sync_partition (g : Git) :
    (analyze_sync g).conflict_files = (analyze_sync g).fork_files ∩ (analyze_sync g).upstream_files ∧
    (analyze_sync g).safe_upstream_files = (analyze_sync g).upstream_files \ (analyze_sync g).fork_files ∧
    (analyze_sync g).safe_fork_files = (analyze_sync g).fork_files \ (analyze_sync g).upstream_files ∧
    (analyze_sync g).conflict_files ∪ (analyze_sync g).safe_upstream_files ∪ (analyze_sync g).safe_fork_files
      = (analyze_sync g).fork_files ∪ (analyze_sync g).upstream_files ∧
    Disjoint (analyze_sync g).conflict_files (analyze_sync g).safe_upstream_files ∧
    Disjoint (analyze_sync g).conflict_files (analyze_sync g).safe_fork_files ∧
    Disjoint (analyze_sync g).safe_upstream_files (analyze_sync g).safe_fork_files := by
  refine ⟨analyze_sync_conflict_eq g, analyze_sync_safe_upstream_eq g,
    analyze_sync_safe_fork_eq g, ?_, ?_, ?_, ?_⟩
  · rw [analyze_sync_conflict_eq, analyze_sync_safe_upstream_eq, analyze_sync_safe_fork_eq]
    ext x
    simp only [Finset.mem_union, Finset.mem_inter, Finset.mem_sdiff]
    tauto
  · rw [analyze_sync_conflict_eq, analyze_sync_safe_upstream_eq, Finset.disjoint_left]
    intro x hx
    simp only [Finset.mem_inter, Finset.mem_sdiff] at *
    tauto
  · rw [analyze_sync_conflict_eq, analyze_sync_safe_fork_eq, Finset.disjoint_left]
    intro x hx
    simp only [Finset.mem_inter, Finset.mem_sdiff] at *
    tauto
  · rw [analyze_sync_safe_upstream_eq, analyze_sync_safe_fork_eq, Finset.disjoint_left]
    intro x hx
    simp only [Finset.mem_sdiff] at *
    tauto

/-- C2: every SyncAnalysis produced by analyze_sync satisfies
conflictFiles ⊆ forkFiles, conflictFiles ⊆ upstreamFiles,
safeUpstreamFiles ∪ conflictFiles = upstreamFiles,
safeForkFiles ∪ conflictFiles = forkFiles, and the derived sets are
pairwise disjoint. -/
theorem analyze_sync_invariants (g : Git) :
    (analyze_sync g).conflict_files ⊆ (analyze_sync g).fork_files ∧
    (analyze_sync g).conflict_files ⊆ (analyze_sync g).upstream_files ∧
    (analyze_sync g).safe_upstream_files ∪ (analyze_sync g).conflict_files
      = (analyze_sync g).upstream_files ∧
    (analyze_sync g).safe_fork_files ∪ (analyze_sync g).conflict_files
      = (analyze_sync g).fork_files ∧
    Disjoint (analyze_sync g).safe_upstream_files (analyze_sync g).conflict_files ∧
    Disjoint (analyze_sync g).safe_fork_files (analyze_sync g).conflict_files ∧
    Disjoint (analyze_sync g).safe_upstream_files (analyze_sync g).safe_fork_files := by
  rw [analyze_sync_conflict_eq, analyze_sync_safe_upstream_eq, analyze_sync_safe_fork_eq]
  refine ⟨Finset.inter_subset_left, Finset.inter_subset_right, ?_, ?_, ?_, ?_, ?_⟩
  · ext x
    simp only [Finset.mem_union, Finset.mem_inter, Finset.mem_sdiff]
    tauto
  · ext x
    simp only [Finset.mem_union, Finset.mem_inter, Finset.mem_sdiff]
    tauto
  · rw [Finset.disjoint_left]
    intro x hx
    simp only [Finset.mem_inter, Finset.mem_sdiff] at *
    tauto
  · rw [Finset.disjoint_left]
    intro x hx
    simp only [Finset.mem_inter, Finset.mem_sdiff] at *
    tauto
  · rw [Finset.disjoint_left]
    intro x hx
    simp only [Finset.mem_sdiff] at *
    tauto

/-- C10: force_report is true exactly when the FORCE_REPORT value is a
string whose lower-casing is "true"; "1", "yes" and unset all count as
unset, while "TRUE" and "true" count as set. -/
theorem force_report_spec :
    (∀ v : Option String, force_report v = true ↔ ∃ s, v = some s ∧ py_lower s = "true") ∧
    force_report none = false ∧
    force_report (some ("1")) = false ∧
    force_report (some ("yes")) = false ∧
    force_report (some ("TRUE")) = true ∧
    force_report (some ("true")) = true := by
  refine ⟨?_, by decide, by decide, by decide, by decide, by decide⟩
  intro v
  cases v with
  | none =>
      refine ⟨fun h => absurd h (by decide), ?_⟩
      rintro ⟨s, hs, _⟩
      cases hs
  | some s =>
      constructor
      · intro h
        exact ⟨s, rfl, of_decide_eq_true h⟩
      · rintro ⟨t, ht, hl⟩
        injection ht with ht
        subst ht
        exact decide_eq_true hl

/-- Joining a nonempty list of lines yields a string at least as long as
the first line. -/
lemma py_join_cons_length (sep x : String) (xs : List String) :
    x.length ≤ (py_join sep (x :: xs)).length := by
  cases xs with
  | nil => simp [py_join]
  | cons y ys =>
      simp only [py_join, String.length_append]
      omega

/-- A joined report is never the empty string: its first line is the
title, which starts with a fixed 25-character prefix. -/
lemma report_join_ne_empty (a : SyncAnalysis) (g : Git) (date ts : String) :
    py_join ("\n") (report_lines a g date ts) ≠ "" := by
  intro hc
  have h1 := py_join_cons_length ("\n") ("# Upstream Sync Report - " ++ date)
    (report_body a g ++ ["", "---", "*Generated by Upstream Sync Monitor on " ++ ts ++ "*"])
  rw [show py_join ("\n") (("# Upstream Sync Report - " ++ date) ::
      (report_body a g ++ ["", "---", "*Generated by Upstream Sync Monitor on " ++ ts ++ "*"]))
      = py_join ("\n") (report_lines a g date ts) from rfl, hc] at h1
  rw [String.length_append] at h1
  have h2 : ("# Upstream Sync Report - ").length = 25 := rfl
  have h3 : ("" : String).length = 0 := rfl
  rw [h2, h3] at h1
  omega

/-- C5: when upstreamFiles is empty, generate_report emits exactly the
empty string if the force-override flag is unset, and a non-empty report
if it is set. -/
theorem report_suppression (a : SyncAnalysis) (g : Git) (date ts : String)
    (h : a.upstream_files = ∅) :
    (∀ v, force_report v = false → generate_report a g v date ts = "") ∧
    (∀ v, force_report v = true → generate_report a g v date ts ≠ "") := by
  constructor
  · intro v hv
    simp [generate_report, h, hv]
  · intro v hv
    rw [generate_report, if_neg (by simp [hv])]
    exact report_join_ne_empty a g date ts

/-- Witness for C5 at a concrete empty analysis: unset and "true". -/
theorem report_suppression_witness :
    generate_report A0 env_empty none ("2024-01-01") ("2024-01-01 12:00 UTC") = "" ∧
    generate_report A0 env_empty (some ("true")) ("2024-01-01") ("2024-01-01 12:00 UTC") ≠ "" := by
  have h := report_suppression A0 env_empty ("2024-01-01") ("2024-01-01 12:00 UTC") rfl
  exact ⟨h.1 none (by decide), h.2 (some ("true")) (by decide)⟩

/-- C6: when the merge-base query is empty, get_fork_point returns the
first origin/main commit lying in the upstream commit set, and when no
shared commit exists it returns the root-commit query result; being a
total function into String, it always returns some identifier. -/
theorem get_fork_point_fallback (g : Git)
    (hmb : run_git g (["merge-base", "origin/main", "upstream/main"]) = "") :
    (∀ c, first_shared g = some c → get_fork_point g = c ∧ c ∈ upstream_commit_set g) ∧
    (first_shared g = none →
      get_fork_point g = run_git g (["rev-list", "--max-parents=0", "HEAD"])) := by
  constructor
  · intro c hc
    constructor
    · simp [get_fork_point, hmb, hc]
    · rw [first_shared] at hc
      have hp := List.find?_some hc
      exact of_decide_eq_true hp
  · intro hn
    simp [get_fork_point, hmb, hn]

/-- Witness for C6: in env6 the merge-base is empty and c2 is the first
shared commit, so the resolver returns c2. -/
theorem get_fork_point_fallback_witness :
    get_fork_point env6 = "c2" ∧ "c2" ∈ upstream_commit_set env6 :=
  (get_fork_point_fallback env6 (by decide)).1 ("c2") (by decide)

/-- Joining after appending one line equals joining then appending the
separator and the line, for a nonempty prefix. -/
lemma py_join_append_singleton (sep y : String) :
    ∀ {xs : List String}, xs ≠ [] →
      py_join sep (xs ++ [y]) = py_join sep xs ++ sep ++ y := by
  intro xs
  induction xs with
  | nil => intro h; cases h rfl
  | cons x xs ih =>
      intro _
      cases xs with
      | nil => simp [py_join]
      | cons x2 xs2 =>
          have h2 := ih (by simp)
          simp only [List.cons_append] at h2 ⊢
          simp only [py_join]
          rw [h2]
          simp [String.append_assoc]

/-- C7: when the diff has more lines than max_lines, get_file_diff
returns exactly max_lines content lines followed by one summary line
naming the number of omitted lines. -/
theorem get_file_diff_truncates (g : Git) (from_ref to_ref filepath : String)
    (max_lines : Nat) (hpos : 0 < max_lines)
    (hlong : max_lines <
      (py_split_nl (run_git g (["diff", from_ref ++ ".." ++ to_ref, "--", filepath]))).length) :
    ((py_split_nl (run_git g (["diff", from_ref ++ ".." ++ to_ref, "--", filepath]))).take
        max_lines).length = max_lines ∧
    get_file_diff g from_ref to_ref filepath max_lines
      = py_join ("\n")
          ((py_split_nl (run_git g (["diff", from_ref ++ ".." ++ to_ref, "--", filepath]))).take
              max_lines
            ++ [("... (" ++ toString
                  ((py_split_nl (run_git g
                      (["diff", from_ref ++ ".." ++ to_ref, "--", filepath]))).length - max_lines)
                ++ " more lines)")]) := by
  constructor
  · rw [List.length_take]
    omega
  · have hne : (py_split_nl (run_git g
        (["diff", from_ref ++ ".." ++ to_ref, "--", filepath]))).take max_lines ≠ [] := by
      apply List.length_pos.mp
      rw [List.length_take]
      omega
    simp only [get_file_diff]
    rw [if_pos hlong, py_join_append_singleton ("\n") _ hne]

/-- Witness for C7: an 80-line diff with max_lines = 50 keeps 50 lines
and reports 30 more lines. -/
theorem get_file_diff_truncates_witness :
    0 < 50 ∧
    50 < (py_split_nl (run_git env80 (["diff", "abcd..upstream/main", "--", "f.py"]))).length ∧
    toString
      ((py_split_nl (run_git env80 (["diff", "abcd..upstream/main", "--", "f.py"]))).length - 50)
      = "30" ∧
    ((py_split_nl (run_git env80 (["diff", "abcd..upstream/main", "--", "f.py"]))).take 50).length
      = 50 ∧
    get_file_diff env80 ("abcd") ("upstream/main") ("f.py") 50
      = py_join ("\n")
          ((py_split_nl (run_git env80 (["diff", "abcd..upstream/main", "--", "f.py"]))).take 50
            ++ [("... (" ++ toString
                  ((py_split_nl (run_git env80
                      (["diff", "abcd..upstream/main", "--", "f.py"]))).length - 50)
                ++ " more lines)")]) := by
  have h := get_file_diff_truncates env80 ("abcd") ("upstream/main") ("f.py") 50
    (by decide) (by decide)
  exact ⟨by decide, by decide, by decide, h.1, h.2⟩

/-- Dropping the last element of a list extended by three elements. -/
lemma dropLast_append3 (l : List String) (a b c : String) :
    (l ++ [a, b, c]).dropLast = l ++ [a, b] := by
  rw [show l ++ [a, b, c] = (l ++ [a, b]) ++ [c] by simp]
  exact List.dropLast_concat

/-- The enumeration py_sorted of any set is sorted. -/
lemma py_sorted_sorted (s : Finset String) : (py_sorted s).Sorted pyLE := by
  rcases Quot.exists_rep s.val with ⟨l, hl⟩
  rw [py_sorted, ← hl]
  exact py_sort_sorted l

/-- py_sorted enumerates exactly the members of the set. -/
lemma mem_py_sorted {a : String} {s : Finset String} : a ∈ py_sorted s ↔ a ∈ s := by
  rcases Quot.exists_rep s.val with ⟨l, hl⟩
  rw [py_sorted, ← hl, Finset.mem_def, ← hl]
  exact (py_sort_perm l).mem_iff.trans Multiset.mem_coe.symm

/-- C4 counterexample: two runs over the identical analysis on different
dates (the Generated-by timestamp footer removed by dropLast) still
differ, because the title line embeds the current date as well. -/
theorem report_not_byte_identical :
    (report_lines A4 env_empty ("2024-01-01") ("2024-01-01 12:00 UTC")).dropLast
      ≠ (report_lines A4 env_empty ("2024-01-02") ("2024-01-02 12:00 UTC")).dropLast := by
  decide

/-- C4 amended: for identical analyses the report lines are identical
except for the title line (index 0, embedding the current date) and the
final Generated-by timestamp footer line; and every set enumeration used
for rendering is sorted. -/
theorem report_time_independent :
    (∀ (a : SyncAnalysis) (g : Git) (d₁ t₁ d₂ t₂ : String),
      ((report_lines a g d₁ t₁).drop 1).dropLast
        = ((report_lines a g d₂ t₂).drop 1).dropLast) ∧
    (∀ s : Finset String, (py_sorted s).Sorted pyLE) := by
  constructor
  · intro a g d₁ t₁ d₂ t₂
    rw [show (report_lines a g d₁ t₁).drop 1 = report_body a g
        ++ ["", "---", "*Generated by Upstream Sync Monitor on " ++ t₁ ++ "*"] from rfl]
    rw [show (report_lines a g d₂ t₂).drop 1 = report_body a g
        ++ ["", "---", "*Generated by Upstream Sync Monitor on " ++ t₂ ++ "*"] from rfl]
    rw [dropLast_append3, dropLast_append3]
  · exact py_sorted_sorted

/-- C8: file lists are rendered in lexicographic order: the safe-update
bullet lines of A8 appear as a.txt, b.txt, c.txt, the conflict
subsection headers of A8c number a.txt first and b.txt second, and every
py_sorted enumeration backing the rendering is sorted. -/
theorem report_ordering :
    py_sorted A8.safe_upstream_files = ["a.txt", "b.txt", "c.txt"] ∧
    (report_lines A8 env_empty ("2024-01-01") ("2024-01-01 12:00 UTC")).filter
        (fun l => ("- ").data.isPrefixOf l.data)
      = ["- `a.txt`", "- `b.txt`", "- `c.txt`"] ∧
    (report_lines A8c env_empty ("2024-01-01") ("2024-01-01 12:00 UTC")).filter
        (fun l => ("### ").data.isPrefixOf l.data)
      = ["### 1. `a.txt`", "### 2. `b.txt`"] ∧
    (∀ a : SyncAnalysis,
      (py_sorted a.safe_upstream_files).Sorted pyLE ∧
      (py_sorted a.conflict_files).Sorted pyLE ∧
      (py_sorted a.safe_fork_files).Sorted pyLE) := by
  refine ⟨by decide, by decide, by decide, ?_⟩
  intro a
  exact ⟨py_sorted_sorted _, py_sorted_sorted _, py_sorted_sorted _⟩

/-- Every member of a list appears in its enumeration from any start. -/
lemma mem_enumFrom_of_mem {α : Type} {x : α} :
    ∀ {l : List α} (n : Nat), x ∈ l → ∃ i, (i, x) ∈ List.enumFrom n l := by
  intro l
  induction l with
  | nil => intro n h; cases h
  | cons y ys ih =>
      intro n h
      rcases List.mem_cons.mp h with h | h
      · subst h
        exact ⟨n, List.mem_cons_self _ _⟩
      · obtain ⟨i, hi⟩ := ih (n + 1) h
        exact ⟨i, List.mem_cons_of_mem _ hi⟩

/-- C9: a conflict file whose diff text is empty is still rendered, with
the explicit placeholder in place of the diff. -/
theorem conflict_placeholder (a : SyncAnalysis) (g : Git) (date ts f : String)
    (hf : f ∈ a.conflict_files)
    (hd : get_file_diff g a.fork_point ("upstream/main") f 50 = "") :
    ("(no diff available)") ∈ report_lines a g date ts := by
  have hne : a.conflict_files ≠ ∅ := Finset.ne_empty_of_mem hf
  have hfs : f ∈ py_sorted a.conflict_files := mem_py_sorted.mpr hf
  obtain ⟨i, hi⟩ := mem_enumFrom_of_mem 1 hfs
  have hmem : ("(no diff available)") ∈
      (List.enumFrom 1 (py_sorted a.conflict_files)).flatMap (conflict_entry g a.fork_point) := by
    refine List.mem_flatMap.mpr ⟨(i, f), hi, ?_⟩
    simp [conflict_entry, hd]
  simp only [report_lines, report_body]
  rw [if_pos hne]
  simp only [List.mem_cons, List.mem_append]
  tauto

/-- Witness for C9: the single conflict x with an empty diff yields the
placeholder line in the report. -/
theorem conflict_placeholder_witness :
    ("(no diff available)") ∈ report_lines A9 env_empty ("2024-01-01") ("2024-01-01 12:00 UTC") :=
  conflict_placeholder A9 env_empty ("2024-01-01") ("2024-01-01 12:00 UTC") ("x")
    (by decide) (by decide)

/-- C3 counterexample: when every git command fails (exit code 128,
empty output — the missing-reference scenario), no error is raised:
get_fork_point silently returns the empty identifier and the run prints
an empty report and exits 0, not a fatal non-zero exit. -/
theorem missing_ref_no_fatal :
    (env_fail (["merge-base", "origin/main", "upstream/main"])).exitCode = 128 ∧
    get_fork_point env_fail = "" ∧
    main_run (Proc.runs env_fail) none ("2024-01-01") ("2024-01-01 12:00 UTC")
      = ("\n", "", 0) := by
  refine ⟨by decide, by decide, by decide⟩

/-- C3 amended: only a missing git binary (a raising subprocess layer)
terminates the run with exit 1 and a stderr diagnostic; a backend whose
commands all return empty output (missing references under check=False)
makes get_fork_point silently return the empty identifier and the run
exit 0. -/
theorem error_surfacing_amended (msg : String) (v : Option String) (date ts : String)
    (g : Git) (h : ∀ args, py_strip (g args).stdout = "") :
    main_run (Proc.missing msg) v date ts = ("", "Error during analysis: " ++ msg, 1) ∧
    get_fork_point g = "" ∧
    (main_run (Proc.runs g) none date ts).2.2 = 0 := by
  refine ⟨rfl, ?_, rfl⟩
  have hmb : run_git g (["merge-base", "origin/main", "upstream/main"]) = "" := h _
  have hor : run_git g (["rev-list", "origin/main"]) = "" := h _
  have hup : run_git g (["rev-list", "upstream/main"]) = "" := h _
  have hfs : first_shared g = some "" := by
    rw [first_shared, hor]
    rw [show upstream_commit_set g = (py_split_nl ("")).toFinset from
      by rw [upstream_commit_set, hup]]
    decide
  simp [get_fork_point, hmb, hfs]

/-- Witness for C3 amended at the all-failing backend. -/
theorem error_surfacing_amended_witness :
    main_run (Proc.missing ("FileNotFoundError")) none ("2024-01-01") ("2024-01-01 12:00 UTC")
      = ("", "Error during analysis: FileNotFoundError", 1) ∧
    get_fork_point env_fail = "" ∧
    (main_run (Proc.runs env_fail) none ("2024-01-01") ("2024-01-01 12:00 UTC")).2.2 = 0 :=
  error_surfacing_amended ("FileNotFoundError") none ("2024-01-01") ("2024-01-01 12:00 UTC")
    env_fail (fun _ => rfl)
